import Mathlib

/-!
Shallow embedding of `scripts/update_wiki.py` from the auto-wiki repository.

The script publishes generated API pages into a wiki checkout:
generator adapter → publisher (clear + copy) → index generator (Home, Sidebar).
Directories are modelled as finite maps `String → Option String`
(file name ↦ file content); the scratch output directory is modelled as the
listing the generator produced, a `List (String × String)` in `os.listdir`
order; the generator step, whose engine (pydoc-markdown) is an external
collaborator, is abstracted by its outcome: an exception or a scratch listing.
-/

namespace AutoWiki

/-- `WIKI_API_SUBDIR = "api"` from the script's configuration block. -/
def WIKI_API_SUBDIR : String := "api"

/-- Python string slicing `s[:-3]` (drop the last three characters;
shorter strings collapse to `""`), used as `module_filename[:-3]`. -/
def pyStem (s : String) : String :=
  String.mk (s.data.take (s.data.length - 3))

/-- Python `s.endswith(suffix)` (code-point suffix test). -/
def pyEndsWith (s suffix : String) : Bool :=
  List.isSuffixOf suffix.data s.data

/-- The order Python `sorted` uses on strings: ascending code-point
lexicographic comparison, i.e. the lexicographic order on the underlying
character lists. -/
def pyLe (a b : String) : Prop := a.data ≤ b.data

instance pyLe.decidableRel : DecidableRel pyLe :=
  fun a b => inferInstanceAs (Decidable (a.data ≤ b.data))

/-- Python `sorted` on a list of strings. -/
def pysorted (l : List String) : List String :=
  List.insertionSort pyLe l

/-- The string built by a `content += line` loop over `lines`. -/
def joinStr : List String → String
  | [] => ""
  | s :: rest => s ++ joinStr rest

/-- Observable state of the destination (wiki checkout): the API
subdirectory as a file map, and the two index files (absent or present
with their content). -/
structure WikiState where
  api : String → Option String
  home : Option String
  sidebar : Option String

/-- Write (create or overwrite) one file in a directory map, as
`shutil.copy2` does for a single file. -/
def writeFileD (d : String → Option String) (name content : String) :
    String → Option String :=
  fun n => if n = name then some content else d n

/-- The publisher's copy loop: files are written one by one, in listing
order. -/
def copyLoop (d : String → Option String) :
    List (String × String) → (String → Option String)
  | [] => d
  | f :: rest => copyLoop (writeFileD d f.1 f.2) rest

/-- `clear_wiki_api_directory`: recursively delete the API subdirectory
and recreate it empty. -/
def clear_wiki_api_directory (w : WikiState) : WikiState :=
  { w with api := fun _ => none }

/-- The entries of the scratch listing the copy loop accepts: regular
files whose name ends in `".md"`. -/
def mdFiles (scratch : List (String × String)) : List (String × String) :=
  scratch.filter (fun f => pyEndsWith f.1 ".md")

/-- `copy_generated_docs_to_wiki`: if the scratch directory is missing
(`none`) nothing is copied and `[]` is returned; otherwise every `.md`
file of the listing is copied into the API subdirectory and its name
recorded, in listing order.  (The script's early return on an empty
listing copies nothing and returns `[]`, the same as the loop on an
empty listing.) -/
def copy_generated_docs_to_wiki (scratch : Option (List (String × String)))
    (w : WikiState) : WikiState × List String :=
  match scratch with
  | none => (w, [])
  | some files =>
      ({ w with api := copyLoop w.api (mdFiles files) },
       (mdFiles files).map Prod.fst)

/-- One list entry of `Home.md`:
`f"* [{module_name}]({WIKI_API_SUBDIR}/{module_filename})\n"`
with `module_name = module_filename[:-3]`. -/
def homeModuleLine (module_filename : String) : String :=
  "* [" ++ pyStem module_filename ++ "](" ++ WIKI_API_SUBDIR ++ "/" ++
    module_filename ++ ")\n"

/-- One list entry of `_Sidebar.md` (the same f-string as in
`generate_wiki_home`). -/
def sidebarModuleLine (module_filename : String) : String :=
  "* [" ++ pyStem module_filename ++ "](" ++ WIKI_API_SUBDIR ++ "/" ++
    module_filename ++ ")\n"

/-- The module-entry lines of `Home.md`, in emitted order
(`for module_filename in sorted(module_file_names)`). -/
def homeModuleLines (names : List String) : List String :=
  (pysorted names).map homeModuleLine

/-- The module-entry lines of `_Sidebar.md`, in emitted order. -/
def sidebarModuleLines (names : List String) : List String :=
  (pysorted names).map sidebarModuleLine

/-- The fixed opening text of `Home.md`. -/
def homeHeader : String :=
  "# Project Documentation\n\nWelcome to the project documentation wiki. This wiki is auto-generated from the Google-style docstrings in the Python code.\n\n## API Modules\n\n"

/-- The `Home.md` placeholder appended when no module files exist. -/
def homePlaceholder : String :=
  "No API modules have been documented yet, or no documentation files were generated.\n"

/-- The fixed opening text of `_Sidebar.md` (Home link and header). -/
def sidebarHeader : String :=
  "* [Home](Home.md)\n\n**API Modules**\n\n"

/-- The `_Sidebar.md` placeholder appended when no module files exist. -/
def sidebarPlaceholder : String :=
  "No API modules documented.\n"

/-- The full content written to `Home.md` by `generate_wiki_home`. -/
def generate_wiki_home_content (module_file_names : List String) : String :=
  if module_file_names.isEmpty then homeHeader ++ homePlaceholder
  else homeHeader ++ joinStr (homeModuleLines module_file_names)

/-- The full content written to `_Sidebar.md` by `generate_wiki_sidebar`. -/
def generate_wiki_sidebar_content (module_file_names : List String) : String :=
  if module_file_names.isEmpty then sidebarHeader ++ sidebarPlaceholder
  else sidebarHeader ++ joinStr (sidebarModuleLines module_file_names)

/-- `generate_wiki_home`: overwrite `Home.md` at the destination root. -/
def generate_wiki_home (w : WikiState) (module_file_names : List String) :
    WikiState :=
  { w with home := some (generate_wiki_home_content module_file_names) }

/-- `generate_wiki_sidebar`: overwrite `_Sidebar.md` at the destination
root. -/
def generate_wiki_sidebar (w : WikiState) (module_file_names : List String) :
    WikiState :=
  { w with sidebar := some (generate_wiki_sidebar_content module_file_names) }

/-- Outcome of one generator invocation, abstracting the external
pydoc-markdown engine: an exception message, or the scratch directory it
left behind (`none` when the reportedly successful run left no
directory, `some listing` otherwise). -/
abbrev GenOutcome : Type := Except String (Option (List (String × String)))

/-- `run_pydoc_markdown_programmatic` (in-process strategy): the
documentation engine, an external collaborator, is abstracted as a
function `gen` from the source root to the file set it emits (or an
exception).  Any prior scratch directory is deleted before generation
(`shutil.rmtree`), so the resulting scratch state is the generator
outcome alone — an exception propagates, a successful render leaves
exactly the pages produced this run. -/
def run_pydoc_markdown_programmatic (gen : String → GenOutcome)
    (sourceRoot : String)
    (_priorScratch : Option (List (String × String))) : GenOutcome :=
  gen sourceRoot

/-- Modelled from the spec: the external-process invocation strategy
(spec §4.1), which is not present under `src/`.  It resolves the
generator executable (known installation path first, then the execution
path; neither resolving is a fatal "tool not found" error), deletes any
prior scratch directory, runs the tool as a subprocess over the same
source root, treats a non-zero exit status as a fatal error carrying the
captured output, and otherwise leaves the scratch directory holding
exactly the pages generated this run. -/
def run_generator_external (toolFound : Bool) (gen : String → GenOutcome)
    (sourceRoot : String)
    (_priorScratch : Option (List (String × String))) : GenOutcome :=
  if toolFound then gen sourceRoot
  else Except.error "tool not found"

/-- `main`: generator adapter, then publisher (clear + copy), then the
two index generators.  A generator exception aborts with exit code 1
before any destination mutation; otherwise the run exits 0.  Returns
(exit code, final destination state). -/
def main (gen : GenOutcome) (w : WikiState) : Nat × WikiState :=
  match gen with
  | Except.error _ => (1, w)
  | Except.ok scratch =>
      let w1 := clear_wiki_api_directory w
      let p := copy_generated_docs_to_wiki scratch w1
      let w2 := generate_wiki_home p.1 p.2
      let w3 := generate_wiki_sidebar w2 p.2
      (0, w3)

/-- The index content as claim C4 words the ordering: entries sorted
lexicographically by the page name with its extension stripped (rather
than by the full file name, as the code sorts). -/
def specStemSort (names : List String) : List String :=
  List.insertionSort (fun a b => pyLe (pyStem a) (pyStem b)) names

/-- `Home.md` content under the spec-claimed stem ordering (C4). -/
def homeContentStemSorted (module_file_names : List String) : String :=
  if module_file_names.isEmpty then homeHeader ++ homePlaceholder
  else homeHeader ++ joinStr ((specStemSort module_file_names).map homeModuleLine)

/-! ### Helper lemmas -/

theorem strData_append (s t : String) : (s ++ t).data = s.data ++ t.data := rfl

instance pyLe.isTotal : IsTotal String pyLe :=
  ⟨fun a b => le_total a.data b.data⟩

instance pyLe.isTrans : IsTrans String pyLe :=
  ⟨fun _ _ _ hab hbc => le_trans hab hbc⟩

instance pyLe.isAntisymm : IsAntisymm String pyLe :=
  ⟨fun _ _ hab hba => String.ext (le_antisymm hab hba)⟩

theorem pysorted_sorted (l : List String) : List.Sorted pyLe (pysorted l) :=
  List.sorted_insertionSort pyLe l

theorem pysorted_perm (l : List String) : List.Perm (pysorted l) l :=
  List.perm_insertionSort pyLe l

theorem pysorted_congr_perm {l l' : List String} (h : List.Perm l l') :
    pysorted l = pysorted l' :=
  List.eq_of_perm_of_sorted
    ((pysorted_perm l).trans (h.trans (pysorted_perm l').symm))
    (pysorted_sorted l) (pysorted_sorted l')

theorem perm_isEmpty_eq {l l' : List String} (h : List.Perm l l') :
    l.isEmpty = l'.isEmpty := by
  cases l with
  | nil => rw [h.symm.eq_nil]
  | cons a t =>
    cases l' with
    | nil => exact absurd h.eq_nil (by simp)
    | cons b s => rfl

theorem pyStem_append_md (s : String) : pyStem (s ++ ".md") = s := by
  unfold pyStem
  rw [strData_append]
  rw [show (".md" : String).data = ['.', 'm', 'd'] from rfl]
  rw [List.length_append]
  simp only [List.length_cons, List.length_nil]
  rw [show s.data.length + (0 + 1 + 1 + 1) - 3 = s.data.length by omega]
  rw [show (['.', 'm', 'd'] : List Char) = (".md" : String).data from rfl]
  rw [List.take_left]

theorem isInfix_of_append_left {x y : List Char} (z : List Char)
    (h : List.IsInfix x y) : List.IsInfix x (z ++ y) := by
  obtain ⟨u, v, huv⟩ := h
  exact ⟨z ++ u, v, by rw [← huv]; simp [List.append_assoc]⟩

theorem isInfix_joinStr {s : String} {l : List String} (h : s ∈ l) :
    List.IsInfix s.data (joinStr l).data := by
  induction l with
  | nil => cases h
  | cons a t ih =>
    rcases List.mem_cons.mp h with rfl | h2
    · exact ⟨[], (joinStr t).data, by simp [joinStr, strData_append]⟩
    · exact isInfix_of_append_left a.data (ih h2)

theorem copyLoop_not_mem (files : List (String × String)) :
    ∀ (d : String → Option String) (fn : String),
      fn ∉ files.map Prod.fst → copyLoop d files fn = d fn := by
  induction files with
  | nil => intro d fn _; rfl
  | cons f t ih =>
    intro d fn h
    simp only [List.map_cons, List.mem_cons, not_or] at h
    rw [copyLoop, ih _ _ h.2, writeFileD, if_neg h.1]

theorem copyLoop_mem (files : List (String × String)) :
    ∀ (d : String → Option String) (fn c : String),
      (files.map Prod.fst).Nodup → (fn, c) ∈ files →
      copyLoop d files fn = some c := by
  induction files with
  | nil => intro d fn c _ h; cases h
  | cons f t ih =>
    intro d fn c hnd h
    simp only [List.map_cons, List.nodup_cons] at hnd
    rcases List.mem_cons.mp h with heq | hmem
    · rw [copyLoop, ← heq]
      have hnotin : fn ∉ t.map Prod.fst := by
        rw [← heq] at hnd
        exact hnd.1
      rw [copyLoop_not_mem _ _ _ hnotin, writeFileD, if_pos rfl]
    · rw [copyLoop]
      exact ih _ _ _ hnd.2 hmem

theorem mdFiles_names_nodup (sc : List (String × String))
    (h : (sc.map Prod.fst).Nodup) : ((mdFiles sc).map Prod.fst).Nodup :=
  List.Nodup.sublist (List.Sublist.map Prod.fst (List.filter_sublist sc)) h

/-! ### Claim theorems -/

/-- Claim C1: if the generator adapter raises a fatal error, `main`
aborts with exit code 1 before the publisher runs, leaving the
destination tree — the API subdirectory and both index files — exactly
as it was before the run. -/
theorem generation_failure_preserves_destination (e : String) (w : WikiState) :
    main (Except.error e) w = (1, w) := rfl

/-- Claim C2: after the publisher step, the API subdirectory holds
exactly the page files produced by the current run — every produced
`.md` file is present with its content, and any name the run did not
produce (such as a stale file from an earlier run) is absent. -/
theorem publisher_full_replacement (sc : List (String × String))
    (w : WikiState) (hnd : (sc.map Prod.fst).Nodup) :
    (∀ f, f ∈ mdFiles sc →
        ((main (Except.ok (some sc)) w).2).api f.1 = some f.2) ∧
    (∀ fn, fn ∉ (mdFiles sc).map Prod.fst →
        ((main (Except.ok (some sc)) w).2).api fn = none) := by
  constructor
  · intro f hf
    show copyLoop (fun _ => none) (mdFiles sc) f.1 = some f.2
    exact copyLoop_mem _ _ _ _ (mdFiles_names_nodup sc hnd) hf
  · intro fn hfn
    show copyLoop (fun _ => none) (mdFiles sc) fn = none
    rw [copyLoop_not_mem _ _ _ hfn]

/-- Witness for C2: a run producing `a.md` (plus a non-page file) over a
destination that previously held `stale.md` ends with `a.md` present and
`stale.md` absent. -/
theorem publisher_full_replacement_witness :
    ((main (Except.ok (some [("a.md", "docs for a"), ("notes.txt", "not a page")]))
        (WikiState.mk (fun n => if n = "stale.md" then some "stale page" else none)
          none none)).2).api "a.md" = some "docs for a" ∧
    ((main (Except.ok (some [("a.md", "docs for a"), ("notes.txt", "not a page")]))
        (WikiState.mk (fun n => if n = "stale.md" then some "stale page" else none)
          none none)).2).api "stale.md" = none := by
  have h := publisher_full_replacement
    [("a.md", "docs for a"), ("notes.txt", "not a page")]
    (WikiState.mk (fun n => if n = "stale.md" then some "stale page" else none)
      none none)
    (by decide)
  exact ⟨h.1 ("a.md", "docs for a") (by decide), h.2 "stale.md" (by decide)⟩

/-- Claim C3: with unchanged source input (the same generator outcome),
running the pipeline a second time reproduces the first run's result
exactly — same exit code, same API subdirectory contents, byte-identical
`Home.md` and `_Sidebar.md`. -/
theorem pipeline_idempotent (g : GenOutcome) (w : WikiState) :
    main g ((main g w).2) = main g w := by
  cases g with
  | error e => rfl
  | ok scratch =>
    cases scratch with
    | none => rfl
    | some sc => rfl

set_option maxRecDepth 8192 in
/-- Counterexample to C4 as stated: the code sorts by the full file
name, not by the name with its extension stripped.  For the pages
`a.md` and `a.m.md` the emitted order is `a.m` before `a` (since
`'.' < 'd'` makes `"a.m.md" < "a.md"`), while stem order would put
`a` (stem of `a.md`) before `a.m`. -/
theorem index_sort_key_counterexample :
    generate_wiki_home_content ["a.md", "a.m.md"] =
      homeHeader ++ "* [a.m](api/a.m.md)\n* [a](api/a.md)\n" ∧
    generate_wiki_home_content ["a.md", "a.m.md"] ≠
      homeContentStemSorted ["a.md", "a.m.md"] := by
  constructor
  · rfl
  · decide

/-- Claim C4 (amended): both index files list the page entries sorted
lexicographically ascending, case-sensitive, by the full page file name
(extension included); in particular for pages `{b.md, a.md, c.md}` the
listed order is `a, b, c`. -/
theorem index_entries_sorted_by_filename :
    (∀ names : List String, names ≠ [] →
      List.Sorted pyLe (pysorted names) ∧ List.Perm (pysorted names) names ∧
      generate_wiki_home_content names =
        homeHeader ++ joinStr ((pysorted names).map homeModuleLine) ∧
      generate_wiki_sidebar_content names =
        sidebarHeader ++ joinStr ((pysorted names).map sidebarModuleLine)) ∧
    generate_wiki_home_content ["b.md", "a.md", "c.md"] =
      homeHeader ++ "* [a](api/a.md)\n* [b](api/b.md)\n* [c](api/c.md)\n" ∧
    generate_wiki_sidebar_content ["b.md", "a.md", "c.md"] =
      sidebarHeader ++ "* [a](api/a.md)\n* [b](api/b.md)\n* [c](api/c.md)\n" := by
  refine ⟨fun names h => ⟨pysorted_sorted names, pysorted_perm names, ?_, ?_⟩, rfl, rfl⟩
  · rw [generate_wiki_home_content, if_neg (by simp [List.isEmpty_iff, h])]
    rfl
  · rw [generate_wiki_sidebar_content, if_neg (by simp [List.isEmpty_iff, h])]
    rfl

/-- Witness for the amended C4 at a nonempty concrete input. -/
theorem index_entries_sorted_by_filename_witness :
    List.Sorted pyLe (pysorted ["b.md", "a.md", "c.md"]) ∧
    List.Perm (pysorted ["b.md", "a.md", "c.md"]) ["b.md", "a.md", "c.md"] ∧
    generate_wiki_home_content ["b.md", "a.md", "c.md"] =
      homeHeader ++ joinStr ((pysorted ["b.md", "a.md", "c.md"]).map homeModuleLine) ∧
    generate_wiki_sidebar_content ["b.md", "a.md", "c.md"] =
      sidebarHeader ++ joinStr ((pysorted ["b.md", "a.md", "c.md"]).map sidebarModuleLine) :=
  index_entries_sorted_by_filename.1 ["b.md", "a.md", "c.md"] (by decide)

/-- Claim C5: every published page `<name>.md` yields in `Home.md` a
list entry whose display text is exactly `<name>` and whose link target
is exactly `api/<name>.md`, and that entry occurs in the generated
landing page content. -/
theorem home_page_link_form (names : List String) (name fn : String)
    (hmem : fn ∈ names) (hfn : fn = name ++ ".md") :
    homeModuleLine fn = "* [" ++ name ++ "](api/" ++ fn ++ ")\n" ∧
    List.IsInfix (homeModuleLine fn).data
      (generate_wiki_home_content names).data := by
  constructor
  · subst hfn
    unfold homeModuleLine WIKI_API_SUBDIR
    rw [pyStem_append_md]
    apply String.ext
    simp only [strData_append, List.append_assoc]
    rfl
  · have h1 : fn ∈ pysorted names := ((pysorted_perm names).mem_iff).mpr hmem
    have h2 : homeModuleLine fn ∈ homeModuleLines names :=
      List.mem_map_of_mem homeModuleLine h1
    have he : names ≠ [] := List.ne_nil_of_mem hmem
    rw [generate_wiki_home_content, if_neg (by simp [List.isEmpty_iff, he])]
    exact isInfix_of_append_left homeHeader.data (isInfix_joinStr h2)

/-- Witness for C5 at the spec's own example, `widgets.md`. -/
theorem home_page_link_form_witness :
    homeModuleLine "widgets.md" = "* [widgets](api/widgets.md)\n" ∧
    List.IsInfix (homeModuleLine "widgets.md").data
      (generate_wiki_home_content ["widgets.md"]).data :=
  home_page_link_form ["widgets.md"] "widgets" "widgets.md" (by decide) (by decide)

/-- Claim C6: with zero published pages the pipeline completes normally
(exit code 0): `Home.md` is the fixed text plus its placeholder line and
has no module list entries, and `_Sidebar.md` likewise. -/
theorem empty_page_set_handling :
    homeModuleLines [] = [] ∧ sidebarModuleLines [] = [] ∧
    generate_wiki_home_content [] =
      homeHeader ++ "No API modules have been documented yet, or no documentation files were generated.\n" ∧
    generate_wiki_sidebar_content [] =
      sidebarHeader ++ "No API modules documented.\n" ∧
    ∀ w : WikiState, (main (Except.ok (some [])) w).1 = 0 :=
  ⟨rfl, rfl, rfl, rfl, fun _ => rfl⟩

/-- Claim C7: `_Sidebar.md` is a link back to the landing page and a
header, followed by exactly the landing page's list of links (same sort
key, same display names, same link targets); when the page set is empty
the list is replaced by the sidebar placeholder. -/
theorem sidebar_mirrors_home_list (names : List String) :
    sidebarHeader = "* [Home](Home.md)\n\n**API Modules**\n\n" ∧
    sidebarModuleLines names = homeModuleLines names ∧
    generate_wiki_sidebar_content names =
      sidebarHeader ++ (if names.isEmpty then sidebarPlaceholder
        else joinStr (homeModuleLines names)) := by
  refine ⟨rfl, rfl, ?_⟩
  cases h : names.isEmpty
  · rw [generate_wiki_sidebar_content, if_neg (by simp [h]), if_neg (by simp [h])]
    rfl
  · rw [generate_wiki_sidebar_content, if_pos (by simp [h]), if_pos (by simp [h])]

/-- Claim C8: the external-process strategy (spec-modelled, §4.1) and
the in-process programmatic strategy, run over the same source root and
the same abstract generator, yield the same file-set outcome — the same
scratch directory contents — whenever the external tool resolves. -/
theorem invocation_strategies_agree (gen : String → GenOutcome)
    (sourceRoot : String)
    (prior prior' : Option (List (String × String))) :
    run_generator_external true gen sourceRoot prior =
      run_pydoc_markdown_programmatic gen sourceRoot prior' := rfl

/-- Claim C9: the contents of both index files are invariant under any
permutation of the published-page-name list. -/
theorem index_content_perm_invariant (l l' : List String)
    (h : List.Perm l l') :
    generate_wiki_home_content l = generate_wiki_home_content l' ∧
    generate_wiki_sidebar_content l = generate_wiki_sidebar_content l' := by
  have hs : pysorted l = pysorted l' := pysorted_congr_perm h
  have he : l.isEmpty = l'.isEmpty := perm_isEmpty_eq h
  constructor
  · simp only [generate_wiki_home_content, homeModuleLines, hs, he]
  · simp only [generate_wiki_sidebar_content, sidebarModuleLines, hs, he]

/-- Witness for C9 on a transposed two-page list. -/
theorem index_content_perm_invariant_witness :
    generate_wiki_home_content ["b.md", "a.md"] =
      generate_wiki_home_content ["a.md", "b.md"] ∧
    generate_wiki_sidebar_content ["b.md", "a.md"] =
      generate_wiki_sidebar_content ["a.md", "b.md"] :=
  index_content_perm_invariant ["b.md", "a.md"] ["a.md", "b.md"]
    (List.Perm.swap "a.md" "b.md" [])

/-- Claim C10: display-name stripping removes exactly the last three
characters unconditionally; a page file named exactly `.md` yields in
both index files a list entry with empty display text and link target
`api/.md`, not a rejected or skipped entry. -/
theorem empty_stem_page_entry :
    pyStem ".md" = "" ∧
    homeModuleLines [".md"] = ["* [](api/.md)\n"] ∧
    sidebarModuleLines [".md"] = ["* [](api/.md)\n"] ∧
    generate_wiki_home_content [".md"] = homeHeader ++ "* [](api/.md)\n" ∧
    generate_wiki_sidebar_content [".md"] = sidebarHeader ++ "* [](api/.md)\n" :=
  ⟨rfl, rfl, rfl, rfl, rfl⟩

end AutoWiki

